import Mathlib

/-!
Verification development for the flush engine (flush_job.cc) of an
LSM storage system.  The definitions below are a shallow embedding of
FlushJob::Run, FlushJob::MemPurge, FlushJob::MemPurgeDecider and
FlushJob::WriteLevel0Table.  External collaborators (memtable iterators,
the compaction iterator, the table builder, the clock) are modelled as
oracle inputs carried in environment records; the control flow and the
state bookkeeping are translated from the source.
-/

namespace FlushJobModel

/-- Status codes used by the flush engine, with their messages. -/
inductive Status where
  | ok
  | notFound (msg : String)
  | notSupported (msg : String)
  | aborted (msg : String)
  | corruption (msg : String)
  | columnFamilyDropped (msg : String)
  | shutdownInProgress (msg : String)
  | ioError (msg : String)
  deriving DecidableEq, Repr

def Status.isOk : Status → Bool
  | .ok => true
  | _ => false

def Status.isAborted : Status → Bool
  | .aborted _ => true
  | _ => false

def Status.isColumnFamilyDropped : Status → Bool
  | .columnFamilyDropped _ => true
  | _ => false

def Status.isNotSupported : Status → Bool
  | .notSupported _ => true
  | _ => false

/-- Flush reasons, as enumerated in GetFlushReasonString. -/
inductive FlushReason where
  | kOthers
  | kGetLiveFiles
  | kShutDown
  | kExternalFileIngestion
  | kManualCompaction
  | kWriteBufferManager
  | kWriteBufferFull
  | kTest
  | kDeleteFiles
  | kAutoCompaction
  | kManualFlush
  | kErrorRecovery
  | kWalFull
  deriving DecidableEq, Repr

/-- Mempurge policies read by FlushJob::MemPurgeDecider. -/
inductive MemPurgePolicy where
  | kAlways
  | kAlternate
  | kDisabled
  deriving DecidableEq, Repr

/-- Observable identity of a memtable: id, entry count, next log number,
first and earliest sequence numbers. -/
structure MemTableM where
  id : Nat
  numEntries : Nat
  nextLogNumber : Nat
  firstSeq : Nat
  earliestSeq : Nat
  deriving DecidableEq, Repr

/-- State of the immutable memtable list: the memtables not yet flushed,
the set of ids flagged as mempurge outputs, and the ids currently picked
for a flush. -/
structure ImmState where
  memlist : List MemTableM
  mempurgeOutputIDs : List Nat
  picked : List Nat
  deriving DecidableEq, Repr

/-- ImmutableList RemoveMemPurgeOutputID: drop one id from the flag set. -/
def removeMemPurgeOutputID (i : Nat) (imm : ImmState) : ImmState :=
  { imm with mempurgeOutputIDs := imm.mempurgeOutputIDs.filter (fun j => decide (j ≠ i)) }

/-- Loop of RemoveMemPurgeOutputID calls over the picked memtables
(flush_job.cc lines 572 - 577 and 846 - 853). -/
def removeMemPurgeOutputIDs (mems : List MemTableM) (imm : ImmState) : ImmState :=
  mems.foldl (fun acc m => removeMemPurgeOutputID m.id acc) imm

/-- ImmutableList AddMemPurgeOutputID: flag one id as a mempurge output. -/
def addMemPurgeOutputID (i : Nat) (imm : ImmState) : ImmState :=
  { imm with mempurgeOutputIDs := i :: imm.mempurgeOutputIDs }

/-- ImmutableList Add: insert a memtable at the front of the list. -/
def addMemTable (m : MemTableM) (imm : ImmState) : ImmState :=
  { imm with memlist := m :: imm.memlist }

/-- Computation of contains_mempurge_outcome_ in FlushJob::PickMemTable
(lines 198 - 206): true when some picked memtable id is flagged as a
previous mempurge output. -/
def containsMempurgeOutcome (imm : ImmState) (mems : List MemTableM) : Bool :=
  mems.any (fun m => decide (m.id ∈ imm.mempurgeOutputIDs))

/-- The largest sequence number, kMaxSequenceNumber (max uint64). -/
def kMaxSequenceNumber : Nat := 2 ^ 64 - 1

/-- Message of the mempurge overflow abort (flush_job.cc lines 503, 548, 588). -/
def mempurgeAbortMsg : String := "Mempurge filled more than one memtable."

/-- One record handed to new_mem via Add during mempurge: its sequence
number, the status returned by Add, and the approximate memory usage of
new_mem right after this insert. -/
structure XferEv where
  seq : Nat
  addStatus : Status
  usageAfter : Nat
  deriving DecidableEq, Repr

/-- Running state of the mempurge transfer loops: current status,
running minimum new_first_seqno, and current approximate memory usage
of new_mem. -/
structure XferState where
  s : Status
  newFirstSeq : Nat
  usage : Nat
  deriving DecidableEq, Repr

/-- One iteration of the mempurge transfer loop (flush_job.cc
lines 476 - 507 for point keys and 518 - 553 for range tombstones):
update new_first_seqno, run Add, break on Add failure, and abort when
the usage after the insert strictly exceeds the write buffer size. -/
def xferStep (maxSize : Nat) (st : XferState) (ev : XferEv) : XferState :=
  if st.s.isOk = false then st
  else
    let nf := min ev.seq st.newFirstSeq
    if ev.addStatus.isOk = false then
      { s := ev.addStatus, newFirstSeq := nf, usage := st.usage }
    else if maxSize < ev.usageAfter then
      { s := Status.aborted mempurgeAbortMsg, newFirstSeq := nf, usage := ev.usageAfter }
    else
      { s := Status.ok, newFirstSeq := nf, usage := ev.usageAfter }

/-- The mempurge transfer loop over a list of emitted records. -/
def transfer (maxSize : Nat) (st : XferState) (evs : List XferEv) : XferState :=
  evs.foldl (xferStep maxSize) st

/-- Oracle inputs of FlushJob::MemPurge: validity of the merged iterator
after SeekToFirst, emptiness of the range tombstone aggregator, the
compaction filter configuration, the records emitted by the compaction
iterator and by the tombstone iterator, the compaction iterator status,
the usage of the freshly allocated new_mem, and its ShouldFlushNow flag. -/
structure PurgeEnv where
  iterValid : Bool
  rangeAggEmpty : Bool
  filterPresent : Bool
  filterIgnoresSnapshots : Bool
  points : List XferEv
  tombstones : List XferEv
  cIterStatus : Status
  initUsage : Nat
  mustFlushNow : Bool
  deriving DecidableEq, Repr

/-- Transfer state after the point key loop of MemPurge (lines 476 - 507). -/
def purgeXferPoints (maxSize : Nat) (env : PurgeEnv) : XferState :=
  transfer maxSize ⟨Status.ok, kMaxSequenceNumber, env.initUsage⟩ env.points

/-- Transfer state after folding in the compaction iterator status
(lines 509 - 515): a non-OK compaction iterator status replaces an OK
transfer status; a non-OK transfer status is kept. -/
def purgeXferMid (maxSize : Nat) (env : PurgeEnv) : XferState :=
  if (purgeXferPoints maxSize env).s.isOk = true ∧ env.cIterStatus.isOk = false then
    { purgeXferPoints maxSize env with s := env.cIterStatus }
  else purgeXferPoints maxSize env

/-- Combined transfer state of MemPurge right before the acceptance
check at line 558: the point key transfer, the compaction iterator
status, then the range tombstone transfer (lines 517 - 553, run only
when the status is still OK). -/
def purgeXfer (maxSize : Nat) (env : PurgeEnv) : XferState :=
  if (purgeXferMid maxSize env).s.isOk = true then
    transfer maxSize (purgeXferMid maxSize env) env.tombstones
  else purgeXferMid maxSize env

/-- New memtable id: the minimum id over the picked memtables, computed
as in flush_job.cc lines 569 - 573 starting from the first element. -/
def minId : List MemTableM → Nat
  | [] => 0
  | m :: ms => ms.foldl (fun acc mt => min mt.id acc) m.id

/-- Minimum earliest sequence number over the picked memtables
(flush_job.cc lines 384 - 394). -/
def minEarliestSeq : List MemTableM → Nat
  | [] => kMaxSequenceNumber
  | m :: ms => ms.foldl (fun acc mt => min mt.earliestSeq acc) m.earliestSeq

/-- Result of FlushJob::MemPurge: its status, whether the db mutex is
held when it returns, the updated immutable list state, whether new_mem
was allocated, whether it was pushed to memtables_to_free, and the
memtable added to the immutable list when the purge output is accepted. -/
structure PurgeResult where
  status : Status
  mutexHeldAtReturn : Bool
  imm : ImmState
  newMemAllocated : Bool
  newMemFreed : Bool
  newMemAdded : Option MemTableM
  deriving DecidableEq, Repr

/-- The memtable produced by an accepted mempurge: id is the minimum
picked id (lines 569 - 578), first sequence number is the rectified
new_first_seqno (line 561), earliest sequence number is the minimum of
the inputs (line 468). -/
def purgeNewMem (mems : List MemTableM) (writeBufferSize : Nat) (env : PurgeEnv) :
    MemTableM :=
  { id := minId mems
    numEntries := env.points.length + env.tombstones.length
    nextLogNumber := 0
    firstSeq := (purgeXfer writeBufferSize env).newFirstSeq
    earliestSeq := minEarliestSeq mems }

/-- Shallow embedding of FlushJob::MemPurge (flush_job.cc lines 349 - 622).
The db mutex is held on entry and released at line 352; the function
re-acquires it at line 602 before returning, except on the early
NotSupported return at lines 431 - 435 which skips the re-acquisition. -/
def memPurge (mems : List MemTableM) (writeBufferSize : Nat) (env : PurgeEnv)
    (imm : ImmState) : PurgeResult :=
  if env.iterValid = true ∨ env.rangeAggEmpty = false then
    if env.filterPresent = true ∧ env.filterIgnoresSnapshots = false then
      { status := Status.notSupported
          "CompactionFilter::IgnoreSnapshots() = false is not supported anymore."
        mutexHeldAtReturn := false
        imm := imm
        newMemAllocated := false
        newMemFreed := false
        newMemAdded := none }
    else if (purgeXfer writeBufferSize env).s.isOk = true ∧
        (purgeXfer writeBufferSize env).newFirstSeq ≠ kMaxSequenceNumber then
      if (purgeXfer writeBufferSize env).usage < writeBufferSize ∧
          env.mustFlushNow = false then
        { status := Status.ok
          mutexHeldAtReturn := true
          imm := addMemTable (purgeNewMem mems writeBufferSize env)
                   (addMemPurgeOutputID (minId mems) (removeMemPurgeOutputIDs mems imm))
          newMemAllocated := true
          newMemFreed := false
          newMemAdded := some (purgeNewMem mems writeBufferSize env) }
      else
        { status := Status.aborted mempurgeAbortMsg
          mutexHeldAtReturn := true
          imm := imm
          newMemAllocated := true
          newMemFreed := true
          newMemAdded := none }
    else
      { status := (purgeXfer writeBufferSize env).s
        mutexHeldAtReturn := true
        imm := imm
        newMemAllocated := true
        newMemFreed := true
        newMemAdded := none }
  else
    { status := Status.ok
      mutexHeldAtReturn := true
      imm := imm
      newMemAllocated := false
      newMemFreed := false
      newMemAdded := none }

/-- Shallow embedding of FlushJob::MemPurgeDecider (lines 624 - 635). -/
def memPurgeDecider (policy : MemPurgePolicy) (containsOutcome : Bool) : Bool :=
  match policy with
  | MemPurgePolicy.kAlways => true
  | MemPurgePolicy.kAlternate => !containsOutcome
  | MemPurgePolicy.kDisabled => false

/-- State of the version: level 0 file numbers and the recovery log number. -/
structure VersionM where
  l0Files : List Nat
  logNumber : Nat
  deriving DecidableEq, Repr

/-- Oracle inputs of FlushJob::WriteLevel0Table: the status returned by
BuildTable, the num_input_entries it reported, the output file size,
the verification option, the output directory handle and sync flag, and
the status of the directory fsync. -/
structure WL0Env where
  buildStatus : Status
  numInputEntries : Nat
  fileSize : Nat
  flushVerifyMemtableCount : Bool
  hasOutputDir : Bool
  syncOutputDir : Bool
  fsyncStatus : Status
  deriving DecidableEq, Repr

/-- Sum of num_entries over the input memtables (flush_job.cc line 676). -/
def totalNumEntries (mems : List MemTableM) : Nat :=
  mems.foldl (fun acc m => acc + m.numEntries) 0

/-- Warning and Corruption message of the entry count verification
(flush_job.cc lines 760 - 762). -/
def countMismatchMsg (total got : Nat) : String :=
  "Expected " ++ toString total ++ " entries in memtables, but read " ++ toString got

/-- Result of FlushJob::WriteLevel0Table: the status, whether the count
mismatch warning was logged, and whether the edit received the file. -/
structure WL0Result where
  status : Status
  warnedCountMismatch : Bool
  editHasFile : Bool
  deriving DecidableEq, Repr

/-- Shallow embedding of FlushJob::WriteLevel0Table (lines 637 - 863),
restricted to its status evolution: BuildTable status, entry count
verification (lines 759 - 769), directory fsync (lines 788 - 790), and
the addition of the file to the edit when the file size is positive
(lines 798 - 815). -/
def writeLevel0Table (mems : List MemTableM) (env : WL0Env) : WL0Result :=
  let total := totalNumEntries mems
  let mismatch : Bool := decide (env.numInputEntries ≠ total) && env.buildStatus.isOk
  let s1 := if mismatch && env.flushVerifyMemtableCount then
              Status.corruption (countMismatchMsg total env.numInputEntries)
            else env.buildStatus
  let s2 := if s1.isOk && env.hasOutputDir && env.syncOutputDir then
              env.fsyncStatus
            else s1
  { status := s2
    warnedCountMismatch := mismatch
    editHasFile := s2.isOk && decide (0 < env.fileSize) }

/-- Drop and shutdown checks of FlushJob::Run (lines 271 - 277): a drop
of the column family turns an OK status into ColumnFamilyDropped, and a
set shutting-down flag turns an OK or ColumnFamilyDropped status into
ShutdownInProgress. -/
def applyCancellation (s : Status) (isDropped shuttingDown : Bool) : Status :=
  let s1 := if s.isOk && isDropped then
              Status.columnFamilyDropped "Column family dropped during compaction"
            else s
  if (s1.isOk || s1.isColumnFamilyDropped) && shuttingDown then
    Status.shutdownInProgress "Database shutdown"
  else s1

/-- Modelled from the spec: MemTableList RollbackMemtableFlush, whose
body (memtable_list.cc) is not part of the sources.  Per the spec it
un-picks the memtables so a retry can select them and discards the
output file number; the list of memtables itself is unchanged. -/
def rollbackMemtableFlush (mems : List MemTableM) (_fileNumber : Nat)
    (imm : ImmState) : ImmState :=
  { imm with picked := imm.picked.filter (fun i => !(mems.map (fun m => m.id)).contains i) }

/-- Next log number recorded in the edit: GetNextLogNumber of the last
picked memtable (flush_job.cc line 189). -/
def nextLogOf (mems : List MemTableM) : Nat :=
  match mems.getLast? with
  | some m => m.nextLogNumber
  | none => 0

/-- Modelled from the spec: MemTableList TryInstallMemtableFlushResults,
whose body (memtable_list.cc) is not part of the sources.  Per the spec
it retires the flushed memtables from the immutable list and, when
write_edit is true, applies the version edit (new level 0 file when the
output has positive size, log number advance) in a manifest transaction;
with write_edit false no manifest record is emitted and the version is
untouched. -/
def tryInstallMemtableFlushResults (mems : List MemTableM) (fileNumber : Nat)
    (hasOutput : Bool) (writeEdit : Bool) (instStatus : Status)
    (imm : ImmState) (ver : VersionM) : Status × ImmState × VersionM :=
  let imm1 : ImmState :=
    { imm with
      memlist := imm.memlist.filter (fun m => decide (m ∉ mems))
      picked := imm.picked.filter (fun i => !(mems.map (fun m => m.id)).contains i) }
  let ver1 : VersionM :=
    if writeEdit && instStatus.isOk then
      { l0Files := if hasOutput then fileNumber :: ver.l0Files else ver.l0Files
        logNumber := nextLogOf mems }
    else ver
  (instStatus, imm1, ver1)

/-- Inputs of FlushJob::Run: the picked memtables, options, flush
reason, mempurge oracle inputs, table build oracle inputs, the drop and
shutdown flags, the write_manifest flag, the status of the manifest
installation, and the output file number picked in PickMemTable. -/
structure RunEnv where
  mems : List MemTableM
  allowMempurge : Bool
  mempurgePolicy : MemPurgePolicy
  flushReason : FlushReason
  writeBufferSize : Nat
  purgeEnv : PurgeEnv
  wl0 : WL0Env
  isDropped : Bool
  shuttingDown : Bool
  writeManifest : Bool
  tryInstallStatus : Status
  outputFileNumber : Nat
  deriving Repr

/-- Result of FlushJob::Run: the returned status, the intermediate
statuses, which phases ran, the rollback and installation calls, and
the final immutable list and version states. -/
structure RunResult where
  status : Status
  ioPhaseStatus : Status
  statusAfterChecks : Status
  mempurgeAttempted : Bool
  mempurgeStatus : Status
  purgeNewMemAdded : Option MemTableM
  purgeNewMemAllocated : Bool
  purgeNewMemFreed : Bool
  builtTable : Bool
  rollbackCalled : Option (List Nat × Nat)
  tryInstalledWriteEdit : Option Bool
  editCommitted : Bool
  imm : ImmState
  ver : VersionM
  deriving Repr

/-- Result of memPurge as seen by FlushJob::Run. -/
def purgeResultOf (env : RunEnv) (imm0 : ImmState) : PurgeResult :=
  memPurge env.mems env.writeBufferSize env.purgeEnv imm0

/-- Entry predicate of the mempurge attempt in FlushJob::Run
(lines 243 - 247): feature enabled, flush reason is write buffer full,
picked set non-empty, and the policy decider approves. -/
def runAttempted (env : RunEnv) (imm0 : ImmState) : Bool :=
  env.allowMempurge &&
  decide (env.flushReason = FlushReason.kWriteBufferFull) &&
  !env.mems.isEmpty &&
  memPurgeDecider env.mempurgePolicy (containsMempurgeOutcome imm0 env.mems)

/-- Value of mempurge_s after the mempurge attempt (lines 243 - 261):
the status returned by MemPurge when attempted, the NotFound sentinel
otherwise. -/
def runMempurgeStatus (env : RunEnv) (imm0 : ImmState) : Status :=
  if runAttempted env imm0 then (purgeResultOf env imm0).status
  else Status.notFound "No MemPurge."

/-- Immutable list state after the mempurge attempt. -/
def runImm1 (env : RunEnv) (imm0 : ImmState) : ImmState :=
  if runAttempted env imm0 then (purgeResultOf env imm0).imm else imm0

/-- Status after the I/O phase of FlushJob::Run (lines 262 - 269): OK
when mempurge succeeded, the WriteLevel0Table status otherwise. -/
def runIoStatus (env : RunEnv) (imm0 : ImmState) : Status :=
  if (runMempurgeStatus env imm0).isOk then Status.ok
  else (writeLevel0Table env.mems env.wl0).status

/-- Immutable list state after the I/O phase: a successful disk write
with the mempurge feature enabled clears the mempurge output flags of
the inputs (flush_job.cc lines 846 - 853). -/
def runImm2 (env : RunEnv) (imm0 : ImmState) : ImmState :=
  if !(runMempurgeStatus env imm0).isOk && env.allowMempurge &&
      (writeLevel0Table env.mems env.wl0).status.isOk then
    removeMemPurgeOutputIDs env.mems (runImm1 env imm0)
  else runImm1 env imm0

/-- Status after the drop and shutdown checks (lines 271 - 277). -/
def runChecked (env : RunEnv) (imm0 : ImmState) : Status :=
  applyCancellation (runIoStatus env imm0) env.isDropped env.shuttingDown

/-- The new_mem added to the immutable list by the mempurge attempt. -/
def runPurgeAdded (env : RunEnv) (imm0 : ImmState) : Option MemTableM :=
  if runAttempted env imm0 then (purgeResultOf env imm0).newMemAdded else none

/-- Whether the mempurge attempt allocated new_mem. -/
def runPurgeAllocated (env : RunEnv) (imm0 : ImmState) : Bool :=
  runAttempted env imm0 && (purgeResultOf env imm0).newMemAllocated

/-- Whether the mempurge attempt pushed new_mem to memtables_to_free. -/
def runPurgeFreed (env : RunEnv) (imm0 : ImmState) : Bool :=
  runAttempted env imm0 && (purgeResultOf env imm0).newMemFreed

/-- Shallow embedding of FlushJob::Run (flush_job.cc lines 212 - 341):
early return on an empty picked set; mempurge attempt gated by the
four entry conditions (lines 243 - 247); disk write via
WriteLevel0Table when mempurge did not succeed (lines 262 - 269); drop
and shutdown checks (lines 271 - 277); rollback on any non-OK status,
otherwise installation when write_manifest is set, with write_edit true
exactly when no mempurge succeeded (lines 279 - 295). -/
def run (env : RunEnv) (imm0 : ImmState) (ver0 : VersionM) : RunResult :=
  if env.mems = [] then
    { status := Status.ok
      ioPhaseStatus := Status.ok
      statusAfterChecks := Status.ok
      mempurgeAttempted := false
      mempurgeStatus := Status.notFound "No MemPurge."
      purgeNewMemAdded := none
      purgeNewMemAllocated := false
      purgeNewMemFreed := false
      builtTable := false
      rollbackCalled := none
      tryInstalledWriteEdit := none
      editCommitted := false
      imm := imm0
      ver := ver0 }
  else if (runChecked env imm0).isOk = false then
    { status := runChecked env imm0
      ioPhaseStatus := runIoStatus env imm0
      statusAfterChecks := runChecked env imm0
      mempurgeAttempted := runAttempted env imm0
      mempurgeStatus := runMempurgeStatus env imm0
      purgeNewMemAdded := runPurgeAdded env imm0
      purgeNewMemAllocated := runPurgeAllocated env imm0
      purgeNewMemFreed := runPurgeFreed env imm0
      builtTable := !(runMempurgeStatus env imm0).isOk
      rollbackCalled := some (env.mems.map (fun m => m.id), env.outputFileNumber)
      tryInstalledWriteEdit := none
      editCommitted := false
      imm := rollbackMemtableFlush env.mems env.outputFileNumber (runImm2 env imm0)
      ver := ver0 }
  else if env.writeManifest then
    { status := (tryInstallMemtableFlushResults env.mems env.outputFileNumber
        (writeLevel0Table env.mems env.wl0).editHasFile
        (!(runMempurgeStatus env imm0).isOk) env.tryInstallStatus
        (runImm2 env imm0) ver0).1
      ioPhaseStatus := runIoStatus env imm0
      statusAfterChecks := runChecked env imm0
      mempurgeAttempted := runAttempted env imm0
      mempurgeStatus := runMempurgeStatus env imm0
      purgeNewMemAdded := runPurgeAdded env imm0
      purgeNewMemAllocated := runPurgeAllocated env imm0
      purgeNewMemFreed := runPurgeFreed env imm0
      builtTable := !(runMempurgeStatus env imm0).isOk
      rollbackCalled := none
      tryInstalledWriteEdit := some (!(runMempurgeStatus env imm0).isOk)
      editCommitted := !(runMempurgeStatus env imm0).isOk && env.tryInstallStatus.isOk
      imm := (tryInstallMemtableFlushResults env.mems env.outputFileNumber
        (writeLevel0Table env.mems env.wl0).editHasFile
        (!(runMempurgeStatus env imm0).isOk) env.tryInstallStatus
        (runImm2 env imm0) ver0).2.1
      ver := (tryInstallMemtableFlushResults env.mems env.outputFileNumber
        (writeLevel0Table env.mems env.wl0).editHasFile
        (!(runMempurgeStatus env imm0).isOk) env.tryInstallStatus
        (runImm2 env imm0) ver0).2.2 }
  else
    { status := runChecked env imm0
      ioPhaseStatus := runIoStatus env imm0
      statusAfterChecks := runChecked env imm0
      mempurgeAttempted := runAttempted env imm0
      mempurgeStatus := runMempurgeStatus env imm0
      purgeNewMemAdded := runPurgeAdded env imm0
      purgeNewMemAllocated := runPurgeAllocated env imm0
      purgeNewMemFreed := runPurgeFreed env imm0
      builtTable := !(runMempurgeStatus env imm0).isOk
      rollbackCalled := none
      tryInstalledWriteEdit := none
      editCommitted := false
      imm := runImm2 env imm0
      ver := ver0 }

/-! Helper lemmas about the transfer loop and the purge bookkeeping. -/

theorem transfer_stuck (maxSize : Nat) (st : XferState) (evs : List XferEv)
    (h : st.s.isOk = false) : transfer maxSize st evs = st := by
  induction evs with
  | nil => rfl
  | cons ev evs ih =>
    have hstep : xferStep maxSize st ev = st := by
      simp [xferStep, h]
    simpa [transfer, hstep] using ih

theorem transfer_ok (maxSize : Nat) (evs : List XferEv) :
    ∀ st : XferState, st.s = Status.ok →
    (∀ ev ∈ evs, ev.addStatus = Status.ok) →
    (∀ ev ∈ evs, ev.usageAfter ≤ maxSize) →
    (transfer maxSize st evs).s = Status.ok := by
  induction evs with
  | nil => intro st h _ _; simpa [transfer] using h
  | cons ev evs ih =>
    intro st hst hadd husage
    have hstep : xferStep maxSize st ev =
        ⟨Status.ok, min ev.seq st.newFirstSeq, ev.usageAfter⟩ := by
      simp [xferStep, hst, hadd ev (by simp), Status.isOk,
            Nat.not_lt.mpr (husage ev (by simp))]
    have := ih ⟨Status.ok, min ev.seq st.newFirstSeq, ev.usageAfter⟩ rfl
      (fun e he => hadd e (by simp [he])) (fun e he => husage e (by simp [he]))
    simpa [transfer, hstep] using this

theorem transfer_abort (maxSize : Nat) (evs : List XferEv) :
    ∀ st : XferState, st.s = Status.ok →
    (∀ ev ∈ evs, ev.addStatus = Status.ok) →
    (∃ ev ∈ evs, maxSize < ev.usageAfter) →
    (transfer maxSize st evs).s = Status.aborted mempurgeAbortMsg := by
  induction evs with
  | nil => intro st _ _ hex; exact absurd hex (by simp)
  | cons ev evs ih =>
    intro st hst hadd hex
    by_cases hover : maxSize < ev.usageAfter
    · have hstep : xferStep maxSize st ev =
          ⟨Status.aborted mempurgeAbortMsg, min ev.seq st.newFirstSeq, ev.usageAfter⟩ := by
        simp [xferStep, hst, hadd ev (by simp), Status.isOk, hover]
      have hstuck := transfer_stuck maxSize
        ⟨Status.aborted mempurgeAbortMsg, min ev.seq st.newFirstSeq, ev.usageAfter⟩ evs
        (by simp [Status.isOk])
      simp only [transfer, List.foldl_cons, hstep]
      simpa [transfer] using congrArg XferState.s hstuck
    · have hstep : xferStep maxSize st ev =
          ⟨Status.ok, min ev.seq st.newFirstSeq, ev.usageAfter⟩ := by
        simp [xferStep, hst, hadd ev (by simp), Status.isOk, hover]
      have hex' : ∃ e ∈ evs, maxSize < e.usageAfter := by
        rcases hex with ⟨e, he, hlt⟩
        rcases List.mem_cons.mp he with rfl | he'
        · exact absurd hlt hover
        · exact ⟨e, he', hlt⟩
      have := ih ⟨Status.ok, min ev.seq st.newFirstSeq, ev.usageAfter⟩ rfl
        (fun e he => hadd e (by simp [he])) hex'
      simpa [transfer, hstep] using this

theorem removeMemPurgeOutputIDs_memlist (mems : List MemTableM) :
    ∀ imm : ImmState, (removeMemPurgeOutputIDs mems imm).memlist = imm.memlist ∧
      (removeMemPurgeOutputIDs mems imm).picked = imm.picked := by
  induction mems with
  | nil => intro imm; exact ⟨rfl, rfl⟩
  | cons m ms ih =>
    intro imm
    have := ih (removeMemPurgeOutputID m.id imm)
    simpa [removeMemPurgeOutputIDs, removeMemPurgeOutputID] using this

theorem memPurge_none_imm (mems : List MemTableM) (wbs : Nat) (env : PurgeEnv)
    (imm : ImmState) (h : (memPurge mems wbs env imm).newMemAdded = none) :
    (memPurge mems wbs env imm).imm = imm := by
  revert h
  unfold memPurge
  split
  · split
    · intro _; rfl
    · split
      · split
        · intro h; exact absurd h (by simp)
        · intro _; rfl
      · intro _; rfl
  · intro _; rfl

theorem memPurge_added (mems : List MemTableM) (wbs : Nat) (env : PurgeEnv)
    (imm : ImmState) (nm : MemTableM)
    (h : (memPurge mems wbs env imm).newMemAdded = some nm) :
    (memPurge mems wbs env imm).imm.memlist = nm :: imm.memlist ∧
      nm.id = minId mems ∧ (memPurge mems wbs env imm).status = Status.ok := by
  revert h
  unfold memPurge
  split
  · split
    · intro h; exact absurd h (by simp)
    · split
      · split
        · intro h
          have hnm : purgeNewMem mems wbs env = nm := Option.some_inj.mp h
          subst hnm
          refine ⟨?_, rfl, rfl⟩
          simp [addMemTable, addMemPurgeOutputID,
                (removeMemPurgeOutputIDs_memlist mems imm).1]
        · intro h; exact absurd h (by simp)
      · intro h; exact absurd h (by simp)
  · intro h; exact absurd h (by simp)

theorem memPurge_not_ok (mems : List MemTableM) (wbs : Nat) (env : PurgeEnv)
    (imm : ImmState) (h : (memPurge mems wbs env imm).status.isOk = false) :
    (memPurge mems wbs env imm).newMemAdded = none := by
  revert h
  unfold memPurge
  split
  · split
    · intro _; rfl
    · split
      · split
        · intro h; exact absurd h (by simp [Status.isOk])
        · intro _; rfl
      · intro _; rfl
  · intro h; exact absurd h (by simp [Status.isOk])

theorem minId_fold_spec (ms : List MemTableM) :
    ∀ acc : Nat,
      (ms.foldl (fun a mt => min mt.id a) acc = acc ∨
        ∃ m ∈ ms, ms.foldl (fun a mt => min mt.id a) acc = m.id) ∧
      ms.foldl (fun a mt => min mt.id a) acc ≤ acc ∧
      (∀ m ∈ ms, ms.foldl (fun a mt => min mt.id a) acc ≤ m.id) := by
  induction ms with
  | nil => intro acc; exact ⟨Or.inl rfl, le_refl _, by simp⟩
  | cons mt ms ih =>
    intro acc
    have hfold : (mt :: ms).foldl (fun a mt => min mt.id a) acc
        = ms.foldl (fun a mt => min mt.id a) (min mt.id acc) := rfl
    obtain ⟨hmem, hle, hall⟩ := ih (min mt.id acc)
    rw [hfold]
    refine ⟨?_, le_trans hle (min_le_right _ _), ?_⟩
    · rcases hmem with heq | ⟨m, hm, hmeq⟩
      · rcases min_choice mt.id acc with hc | hc
        · exact Or.inr ⟨mt, List.mem_cons_self _ _, by rw [heq, hc]⟩
        · exact Or.inl (by rw [heq, hc])
      · exact Or.inr ⟨m, List.mem_cons_of_mem _ hm, hmeq⟩
    · intro m hm
      rcases List.mem_cons.mp hm with rfl | hm'
      · exact le_trans hle (min_le_left _ _)
      · exact hall m hm'

theorem minId_spec (mems : List MemTableM) (h : mems ≠ []) :
    (∃ m ∈ mems, minId mems = m.id) ∧ ∀ m ∈ mems, minId mems ≤ m.id := by
  match mems, h with
  | m :: ms, _ =>
    obtain ⟨hmem, hle, hall⟩ := minId_fold_spec ms m.id
    constructor
    · rcases hmem with heq | ⟨mt, hmt, hmeq⟩
      · exact ⟨m, List.mem_cons_self _ _, heq⟩
      · exact ⟨mt, List.mem_cons_of_mem _ hmt, hmeq⟩
    · intro mt hmt
      rcases List.mem_cons.mp hmt with rfl | hmt'
      · exact hle
      · exact hall mt hmt'

theorem rollbackMemtableFlush_memlist (mems : List MemTableM) (fn : Nat)
    (imm : ImmState) : (rollbackMemtableFlush mems fn imm).memlist = imm.memlist := rfl

theorem runImm2_memlist (env : RunEnv) (imm0 : ImmState) :
    (runImm2 env imm0).memlist = (runImm1 env imm0).memlist := by
  unfold runImm2
  split
  · exact (removeMemPurgeOutputIDs_memlist env.mems (runImm1 env imm0)).1
  · rfl

theorem run_fields (env : RunEnv) (imm0 : ImmState) (ver0 : VersionM)
    (hne : env.mems ≠ []) :
    (run env imm0 ver0).statusAfterChecks = runChecked env imm0 ∧
    (run env imm0 ver0).ioPhaseStatus = runIoStatus env imm0 ∧
    (run env imm0 ver0).mempurgeStatus = runMempurgeStatus env imm0 ∧
    (run env imm0 ver0).builtTable = !(runMempurgeStatus env imm0).isOk ∧
    (run env imm0 ver0).mempurgeAttempted = runAttempted env imm0 ∧
    (run env imm0 ver0).purgeNewMemAdded = runPurgeAdded env imm0 ∧
    (run env imm0 ver0).purgeNewMemAllocated = runPurgeAllocated env imm0 ∧
    (run env imm0 ver0).purgeNewMemFreed = runPurgeFreed env imm0 := by
  unfold run
  rw [if_neg hne]
  split_ifs <;> exact ⟨rfl, rfl, rfl, rfl, rfl, rfl, rfl, rfl⟩

theorem applyCancellation_shutdown (s : Status) (d : Bool)
    (h : s.isOk = true ∨ s.isColumnFamilyDropped = true) :
    applyCancellation s d true = Status.shutdownInProgress "Database shutdown" := by
  cases s <;> cases d <;>
    simp_all [applyCancellation, Status.isOk, Status.isColumnFamilyDropped]

/-! Concrete inputs used by witnesses and counterexamples. -/

def wMem : MemTableM := ⟨3, 1, 7, 5, 5⟩

def wMemB : MemTableM := ⟨4, 2, 8, 6, 6⟩

def wImmA : ImmState := ⟨[wMem], [], [3]⟩

def wVer : VersionM := ⟨[], 0⟩

def wPurgeEnvOk : PurgeEnv :=
  { iterValid := true, rangeAggEmpty := true, filterPresent := false,
    filterIgnoresSnapshots := true, points := [⟨5, Status.ok, 10⟩], tombstones := [],
    cIterStatus := Status.ok, initUsage := 1, mustFlushNow := false }

def wWL0Ok : WL0Env :=
  { buildStatus := Status.ok, numInputEntries := 1, fileSize := 50,
    flushVerifyMemtableCount := false, hasOutputDir := false, syncOutputDir := false,
    fsyncStatus := Status.ok }

def c1PurgeEnv : PurgeEnv :=
  { wPurgeEnvOk with filterPresent := true, filterIgnoresSnapshots := false }

/-- C1: the claim states that on every return path of MemPurge the db mutex
has been re-acquired.  The code violates this: when a compaction filter is
present and cannot ignore snapshots, MemPurge returns NotSupported from
inside the body, after the unlock at line 352 and before the re-lock at
line 602, so the caller resumes without the mutex even though the
subsequent code paths assert it held.  Every other configuration shown
here does return with the mutex re-acquired. -/
theorem memPurge_notSupported_mutex_not_reacquired :
    (memPurge [wMem] 100 c1PurgeEnv wImmA).status.isNotSupported = true ∧
    (memPurge [wMem] 100 c1PurgeEnv wImmA).mutexHeldAtReturn = false ∧
    (memPurge [wMem] 100 wPurgeEnvOk wImmA).mutexHeldAtReturn = true := by
  refine ⟨by decide, by decide, by decide⟩

/-- C8: a flush job whose picked memtable set is empty returns OK without
building a table, without creating a version edit, and without changing
the immutable list. -/
theorem run_empty_is_noop (env : RunEnv) (imm0 : ImmState) (ver0 : VersionM)
    (h : env.mems = []) :
    (run env imm0 ver0).status = Status.ok ∧
    (run env imm0 ver0).builtTable = false ∧
    (run env imm0 ver0).editCommitted = false ∧
    (run env imm0 ver0).tryInstalledWriteEdit = none ∧
    (run env imm0 ver0).rollbackCalled = none ∧
    (run env imm0 ver0).imm = imm0 ∧
    (run env imm0 ver0).ver = ver0 := by
  unfold run
  rw [if_pos h]
  exact ⟨rfl, rfl, rfl, rfl, rfl, rfl, rfl⟩

def wEmptyRunEnv : RunEnv :=
  { mems := [], allowMempurge := true, mempurgePolicy := MemPurgePolicy.kAlways,
    flushReason := FlushReason.kWriteBufferFull, writeBufferSize := 100,
    purgeEnv := wPurgeEnvOk, wl0 := wWL0Ok, isDropped := false, shuttingDown := false,
    writeManifest := true, tryInstallStatus := Status.ok, outputFileNumber := 9 }

theorem run_empty_is_noop_witness :
    wEmptyRunEnv.mems = [] ∧
    ((run wEmptyRunEnv wImmA wVer).status = Status.ok ∧
     (run wEmptyRunEnv wImmA wVer).builtTable = false ∧
     (run wEmptyRunEnv wImmA wVer).editCommitted = false ∧
     (run wEmptyRunEnv wImmA wVer).tryInstalledWriteEdit = none ∧
     (run wEmptyRunEnv wImmA wVer).rollbackCalled = none ∧
     (run wEmptyRunEnv wImmA wVer).imm = wImmA ∧
     (run wEmptyRunEnv wImmA wVer).ver = wVer) :=
  ⟨rfl, run_empty_is_noop wEmptyRunEnv wImmA wVer rfl⟩

/-- C5: after the I/O phase a column family drop converts an OK status to
ColumnFamilyDropped, a set shutting-down flag converts an OK or
ColumnFamilyDropped status to ShutdownInProgress, and an already non-OK
failure status is never overridden by either check; the last conjunct
ties these checks to the status evolution of Run. -/
theorem cancellation_checks_spec (s : Status) (d sh : Bool) :
    (s.isOk = true → d = true → sh = false →
        applyCancellation s d sh =
          Status.columnFamilyDropped "Column family dropped during compaction") ∧
    ((s.isOk = true ∨ s.isColumnFamilyDropped = true) → sh = true →
        applyCancellation s d sh = Status.shutdownInProgress "Database shutdown") ∧
    (s.isOk = false → s.isColumnFamilyDropped = false →
        applyCancellation s d sh = s) ∧
    (∀ (env : RunEnv) (imm0 : ImmState) (ver0 : VersionM), env.mems ≠ [] →
        (run env imm0 ver0).statusAfterChecks =
          applyCancellation (run env imm0 ver0).ioPhaseStatus
            env.isDropped env.shuttingDown) := by
  refine ⟨?_, ?_, ?_, ?_⟩
  · intro h1 h2 h3
    cases s <;> simp_all [applyCancellation, Status.isOk, Status.isColumnFamilyDropped]
  · intro h1 h2
    subst h2
    exact applyCancellation_shutdown s d h1
  · intro h1 h2
    cases s <;> cases d <;> cases sh <;>
      simp_all [applyCancellation, Status.isOk, Status.isColumnFamilyDropped]
  · intro env imm0 ver0 hne
    obtain ⟨h1, h2, -⟩ := run_fields env imm0 ver0 hne
    rw [h1, h2]
    rfl

def w9Env : RunEnv :=
  { mems := [wMem], allowMempurge := false, mempurgePolicy := MemPurgePolicy.kDisabled,
    flushReason := FlushReason.kManualFlush, writeBufferSize := 100,
    purgeEnv := wPurgeEnvOk, wl0 := wWL0Ok, isDropped := true, shuttingDown := true,
    writeManifest := true, tryInstallStatus := Status.ok, outputFileNumber := 9 }

theorem cancellation_checks_spec_witness :
    (applyCancellation Status.ok true false =
        Status.columnFamilyDropped "Column family dropped during compaction") ∧
    (applyCancellation Status.ok true true =
        Status.shutdownInProgress "Database shutdown") ∧
    (applyCancellation (Status.ioError "io failure") false true =
        Status.ioError "io failure") ∧
    ((run w9Env wImmA wVer).statusAfterChecks =
        applyCancellation (run w9Env wImmA wVer).ioPhaseStatus
          w9Env.isDropped w9Env.shuttingDown) :=
  ⟨(cancellation_checks_spec Status.ok true false).1 rfl rfl rfl,
   (cancellation_checks_spec Status.ok true true).2.1 (Or.inl rfl) rfl,
   (cancellation_checks_spec (Status.ioError "io failure") false true).2.2.1 rfl rfl,
   (cancellation_checks_spec Status.ok false false).2.2.2 w9Env wImmA wVer (by decide)⟩

/-- C9: when after the I/O phase the column family has been dropped and the
shutting-down flag is also set, the shutdown check is applied to a status
that is OK or ColumnFamilyDropped, so Run returns ShutdownInProgress and
not ColumnFamilyDropped. -/
theorem run_shutdown_supersedes_drop (env : RunEnv) (imm0 : ImmState) (ver0 : VersionM)
    (hne : env.mems ≠ []) (hs : env.shuttingDown = true)
    (hio : (runIoStatus env imm0).isOk = true ∨
      (runIoStatus env imm0).isColumnFamilyDropped = true) :
    (run env imm0 ver0).status = Status.shutdownInProgress "Database shutdown" ∧
    (run env imm0 ver0).statusAfterChecks =
      Status.shutdownInProgress "Database shutdown" := by
  have hch : runChecked env imm0 = Status.shutdownInProgress "Database shutdown" := by
    unfold runChecked
    rw [hs]
    exact applyCancellation_shutdown _ _ hio
  have hf : (runChecked env imm0).isOk = false := by rw [hch]; rfl
  unfold run
  rw [if_neg hne, if_pos hf]
  exact ⟨hch, hch⟩

theorem run_shutdown_supersedes_drop_witness :
    w9Env.mems ≠ [] ∧ w9Env.isDropped = true ∧ w9Env.shuttingDown = true ∧
    ((run w9Env wImmA wVer).status = Status.shutdownInProgress "Database shutdown" ∧
     (run w9Env wImmA wVer).statusAfterChecks =
       Status.shutdownInProgress "Database shutdown") :=
  ⟨by decide, rfl, rfl,
   run_shutdown_supersedes_drop w9Env wImmA wVer (by decide) rfl (by decide)⟩

/-- C7: a mempurge is attempted iff the feature is enabled, the flush
reason is write buffer full, the picked set is non-empty, and the policy
decider approves; the decider approves always under kAlways, approves
under kAlternate exactly when no input is a previous mempurge output, and
never approves under kDisabled. -/
theorem mempurge_entry_predicate (env : RunEnv) (imm0 : ImmState) (ver0 : VersionM)
    (hne : env.mems ≠ []) :
    ((run env imm0 ver0).mempurgeAttempted = true ↔
        (env.allowMempurge = true ∧ env.flushReason = FlushReason.kWriteBufferFull ∧
         memPurgeDecider env.mempurgePolicy
           (containsMempurgeOutcome imm0 env.mems) = true)) ∧
    (∀ c, memPurgeDecider MemPurgePolicy.kAlways c = true) ∧
    (∀ c, memPurgeDecider MemPurgePolicy.kAlternate c = !c) ∧
    (∀ c, memPurgeDecider MemPurgePolicy.kDisabled c = false) ∧
    (containsMempurgeOutcome imm0 env.mems = true ↔
        ∃ m ∈ env.mems, m.id ∈ imm0.mempurgeOutputIDs) := by
  refine ⟨?_, fun c => rfl, fun c => rfl, fun c => rfl, ?_⟩
  · obtain ⟨-, -, -, -, h5, -⟩ := run_fields env imm0 ver0 hne
    rw [h5]
    unfold runAttempted
    have hemp : env.mems.isEmpty = false := by
      cases hmems : env.mems with
      | nil => exact absurd hmems hne
      | cons a l => rfl
    simp [hemp, Bool.and_eq_true, decide_eq_true_iff, and_assoc]
  · unfold containsMempurgeOutcome
    simp [List.any_eq_true, decide_eq_true_iff]

def w7Env : RunEnv :=
  { mems := [wMem], allowMempurge := true, mempurgePolicy := MemPurgePolicy.kAlternate,
    flushReason := FlushReason.kWriteBufferFull, writeBufferSize := 100,
    purgeEnv := wPurgeEnvOk, wl0 := wWL0Ok, isDropped := false, shuttingDown := false,
    writeManifest := true, tryInstallStatus := Status.ok, outputFileNumber := 9 }

def w7Imm : ImmState := ⟨[wMem], [3], [3]⟩

theorem mempurge_entry_predicate_witness :
    (((run w7Env w7Imm wVer).mempurgeAttempted = true ↔
        (w7Env.allowMempurge = true ∧
         w7Env.flushReason = FlushReason.kWriteBufferFull ∧
         memPurgeDecider w7Env.mempurgePolicy
           (containsMempurgeOutcome w7Imm w7Env.mems) = true)) ∧
     (∀ c, memPurgeDecider MemPurgePolicy.kAlways c = true) ∧
     (∀ c, memPurgeDecider MemPurgePolicy.kAlternate c = !c) ∧
     (∀ c, memPurgeDecider MemPurgePolicy.kDisabled c = false) ∧
     (containsMempurgeOutcome w7Imm w7Env.mems = true ↔
        ∃ m ∈ w7Env.mems, m.id ∈ w7Imm.mempurgeOutputIDs)) ∧
    (run w7Env w7Imm wVer).mempurgeAttempted = false :=
  ⟨mempurge_entry_predicate w7Env w7Imm wVer (by decide), by decide⟩

/-- C6: in WriteLevel0Table, when the builder reports an entry count that
differs from the sum over the input memtables while the build status is
OK, the warning is logged and the status becomes Corruption exactly when
flush_verify_memtable_count is enabled; with the option disabled the
mismatch never changes the status. -/
theorem wl0_count_verification (mems : List MemTableM) (env : WL0Env)
    (hmm : env.numInputEntries ≠ totalNumEntries mems)
    (hok : env.buildStatus = Status.ok) :
    (writeLevel0Table mems env).warnedCountMismatch = true ∧
    (env.flushVerifyMemtableCount = true →
        (writeLevel0Table mems env).status =
          Status.corruption
            (countMismatchMsg (totalNumEntries mems) env.numInputEntries)) ∧
    (env.flushVerifyMemtableCount = false →
        (writeLevel0Table mems env).status =
          (writeLevel0Table mems
            { env with numInputEntries := totalNumEntries mems }).status) := by
  unfold writeLevel0Table
  have hmb : decide (env.numInputEntries ≠ totalNumEntries mems) = true := by
    simp [hmm]
  refine ⟨?_, ?_, ?_⟩
  · simp [hmb, hok, Status.isOk]
  · intro hv
    simp [hmb, hok, hv, Status.isOk]
  · intro hv
    simp [hmb, hok, hv, Status.isOk]

def w6Env : WL0Env :=
  { buildStatus := Status.ok, numInputEntries := 2, fileSize := 50,
    flushVerifyMemtableCount := true, hasOutputDir := false, syncOutputDir := false,
    fsyncStatus := Status.ok }

def w6EnvB : WL0Env := { w6Env with flushVerifyMemtableCount := false }

theorem wl0_count_verification_witness :
    ((writeLevel0Table [wMem] w6Env).warnedCountMismatch = true ∧
     (writeLevel0Table [wMem] w6Env).status =
       Status.corruption (countMismatchMsg (totalNumEntries [wMem]) 2)) ∧
    ((writeLevel0Table [wMem] w6EnvB).warnedCountMismatch = true ∧
     (writeLevel0Table [wMem] w6EnvB).status =
       (writeLevel0Table [wMem]
         { w6EnvB with numInputEntries := totalNumEntries [wMem] }).status) :=
  ⟨⟨(wl0_count_verification [wMem] w6Env (by decide) rfl).1,
    (wl0_count_verification [wMem] w6Env (by decide) rfl).2.1 rfl⟩,
   ⟨(wl0_count_verification [wMem] w6EnvB (by decide) rfl).1,
    (wl0_count_verification [wMem] w6EnvB (by decide) rfl).2.2 rfl⟩⟩

theorem purgeXfer_abort (wbs : Nat) (env : PurgeEnv)
    (hadds : ∀ ev ∈ env.points ++ env.tombstones, ev.addStatus = Status.ok)
    (hciter : env.cIterStatus = Status.ok)
    (hex : ∃ ev ∈ env.points ++ env.tombstones, wbs < ev.usageAfter) :
    (purgeXfer wbs env).s = Status.aborted mempurgeAbortMsg := by
  have haddp : ∀ ev ∈ env.points, ev.addStatus = Status.ok :=
    fun ev h => hadds ev (List.mem_append_left _ h)
  have haddt : ∀ ev ∈ env.tombstones, ev.addStatus = Status.ok :=
    fun ev h => hadds ev (List.mem_append_right _ h)
  by_cases hp : ∃ ev ∈ env.points, wbs < ev.usageAfter
  · have h0 : (purgeXferPoints wbs env).s = Status.aborted mempurgeAbortMsg := by
      unfold purgeXferPoints
      exact transfer_abort wbs env.points _ rfl haddp hp
    have hmid : purgeXferMid wbs env = purgeXferPoints wbs env := by
      unfold purgeXferMid
      rw [if_neg]
      rintro ⟨h1, -⟩
      rw [h0] at h1
      exact absurd h1 (by simp [Status.isOk])
    unfold purgeXfer
    rw [hmid, if_neg]
    · exact h0
    · rw [h0]
      simp [Status.isOk]
  · have hple : ∀ ev ∈ env.points, ev.usageAfter ≤ wbs := by
      intro ev h
      by_contra hgt
      exact hp ⟨ev, h, Nat.lt_of_not_le (fun hle => hgt hle)⟩
    have h0 : (purgeXferPoints wbs env).s = Status.ok := by
      unfold purgeXferPoints
      exact transfer_ok wbs env.points _ rfl haddp hple
    have hmid : purgeXferMid wbs env = purgeXferPoints wbs env := by
      unfold purgeXferMid
      rw [if_neg]
      rintro ⟨-, h2⟩
      rw [hciter] at h2
      exact absurd h2 (by simp [Status.isOk])
    have ht : ∃ ev ∈ env.tombstones, wbs < ev.usageAfter := by
      rcases hex with ⟨ev, hev, hlt⟩
      rcases List.mem_append.mp hev with h | h
      · exact absurd ⟨ev, h, hlt⟩ hp
      · exact ⟨ev, h, hlt⟩
    unfold purgeXfer
    rw [hmid, if_pos (by rw [h0]; rfl)]
    exact transfer_abort wbs env.tombstones _ h0 haddt ht

/-- C3: whenever an insert during mempurge makes the approximate memory
usage of new_mem strictly exceed the write buffer size, the procedure
aborts with the dedicated Aborted status and new_mem is discarded
(first conjunct); when the usage lands at exactly the write buffer size,
the strict per-insert check does not fire but the final acceptance check
fails, so the result is still the same Aborted status and new_mem is
discarded (second conjunct); and whenever the mempurge status is non-OK,
Run falls back to the disk flush path (third conjunct). -/
theorem mempurge_overflow_aborts :
    (∀ (mems : List MemTableM) (wbs : Nat) (env : PurgeEnv) (imm : ImmState),
      (env.iterValid = true ∨ env.rangeAggEmpty = false) →
      ¬(env.filterPresent = true ∧ env.filterIgnoresSnapshots = false) →
      (∀ ev ∈ env.points ++ env.tombstones, ev.addStatus = Status.ok) →
      env.cIterStatus = Status.ok →
      (∃ ev ∈ env.points ++ env.tombstones, wbs < ev.usageAfter) →
      (memPurge mems wbs env imm).status = Status.aborted mempurgeAbortMsg ∧
      (memPurge mems wbs env imm).newMemFreed = true ∧
      (memPurge mems wbs env imm).newMemAdded = none) ∧
    (∀ (mems : List MemTableM) (wbs : Nat) (env : PurgeEnv) (imm : ImmState),
      (env.iterValid = true ∨ env.rangeAggEmpty = false) →
      ¬(env.filterPresent = true ∧ env.filterIgnoresSnapshots = false) →
      (purgeXfer wbs env).s = Status.ok →
      (purgeXfer wbs env).newFirstSeq ≠ kMaxSequenceNumber →
      (purgeXfer wbs env).usage = wbs →
      (memPurge mems wbs env imm).status = Status.aborted mempurgeAbortMsg ∧
      (memPurge mems wbs env imm).newMemFreed = true ∧
      (memPurge mems wbs env imm).newMemAdded = none) ∧
    (∀ (env : RunEnv) (imm0 : ImmState) (ver0 : VersionM),
      env.mems ≠ [] →
      (run env imm0 ver0).mempurgeStatus.isOk = false →
      (run env imm0 ver0).builtTable = true) := by
  refine ⟨?_, ?_, ?_⟩
  · intro mems wbs env imm henter hfp hadds hciter hex
    have habort := purgeXfer_abort wbs env hadds hciter hex
    unfold memPurge
    rw [if_pos henter, if_neg hfp, if_neg]
    · exact ⟨habort, rfl, rfl⟩
    · rintro ⟨h1, -⟩
      rw [habort] at h1
      exact absurd h1 (by simp [Status.isOk])
  · intro mems wbs env imm henter hfp hs hnf hus
    unfold memPurge
    rw [if_pos henter, if_neg hfp, if_pos ⟨by rw [hs]; rfl, hnf⟩, if_neg]
    · exact ⟨rfl, rfl, rfl⟩
    · rintro ⟨h1, -⟩
      rw [hus] at h1
      exact absurd h1 (lt_irrefl wbs)
  · intro env imm0 ver0 hne hms
    obtain ⟨-, -, h3, h4, -⟩ := run_fields env imm0 ver0 hne
    rw [h3] at hms
    rw [h4, hms]
    rfl

def w3OverEnv : PurgeEnv := { wPurgeEnvOk with points := [⟨5, Status.ok, 101⟩] }

def w3ExactEnv : PurgeEnv := { wPurgeEnvOk with points := [⟨5, Status.ok, 100⟩] }

theorem mempurge_overflow_aborts_witness :
    ((memPurge [wMem] 100 w3OverEnv wImmA).status = Status.aborted mempurgeAbortMsg ∧
     (memPurge [wMem] 100 w3OverEnv wImmA).newMemFreed = true ∧
     (memPurge [wMem] 100 w3OverEnv wImmA).newMemAdded = none) ∧
    ((memPurge [wMem] 100 w3ExactEnv wImmA).status = Status.aborted mempurgeAbortMsg ∧
     (memPurge [wMem] 100 w3ExactEnv wImmA).newMemFreed = true ∧
     (memPurge [wMem] 100 w3ExactEnv wImmA).newMemAdded = none) ∧
    (run w9Env wImmA wVer).builtTable = true :=
  ⟨mempurge_overflow_aborts.1 [wMem] 100 w3OverEnv wImmA (Or.inl rfl) (by decide)
      (by decide) rfl (by decide),
   mempurge_overflow_aborts.2.1 [wMem] 100 w3ExactEnv wImmA (Or.inl rfl) (by decide)
      (by decide) (by decide) (by decide),
   mempurge_overflow_aborts.2.2 w9Env wImmA wVer (by decide) (by decide)⟩

theorem memPurge_empty_emission (mems : List MemTableM) (wbs : Nat) (env : PurgeEnv)
    (imm : ImmState)
    (hfp : ¬(env.filterPresent = true ∧ env.filterIgnoresSnapshots = false))
    (hpts : env.points = []) (htmb : env.tombstones = [])
    (hci : env.cIterStatus = Status.ok) :
    (memPurge mems wbs env imm).status = Status.ok ∧
    (memPurge mems wbs env imm).newMemAdded = none ∧
    (memPurge mems wbs env imm).imm = imm ∧
    (memPurge mems wbs env imm).newMemFreed =
      (memPurge mems wbs env imm).newMemAllocated := by
  have hxp : purgeXferPoints wbs env =
      ⟨Status.ok, kMaxSequenceNumber, env.initUsage⟩ := by
    unfold purgeXferPoints
    rw [hpts]
    rfl
  have hmid : purgeXferMid wbs env =
      ⟨Status.ok, kMaxSequenceNumber, env.initUsage⟩ := by
    unfold purgeXferMid
    rw [hxp, hci, if_neg]
    rintro ⟨-, h2⟩
    exact absurd h2 (by simp [Status.isOk])
  have hx : purgeXfer wbs env = ⟨Status.ok, kMaxSequenceNumber, env.initUsage⟩ := by
    unfold purgeXfer
    rw [hmid, htmb]
    rfl
  by_cases henter : env.iterValid = true ∨ env.rangeAggEmpty = false
  · unfold memPurge
    rw [if_pos henter, if_neg hfp, if_neg]
    · exact ⟨by rw [hx], rfl, rfl, rfl⟩
    · rintro ⟨-, h2⟩
      rw [hx] at h2
      exact h2 rfl
  · unfold memPurge
    rw [if_neg henter]
    exact ⟨rfl, rfl, rfl, rfl⟩

/-- C10: when the mempurge attempt emits no point record and no range
tombstone (so new_first_sequence stays at the maximum sequence number),
MemPurge discards new_mem when it was allocated and still returns OK, so
Run skips the disk write path, installs with write_edit false, leaves the
version untouched, and retires the inputs with no replacement memtable
added to the immutable list. -/
theorem mempurge_empty_emission_run (env : RunEnv) (imm0 : ImmState) (ver0 : VersionM)
    (hne : env.mems ≠ [])
    (hatt : runAttempted env imm0 = true)
    (hfp : ¬(env.purgeEnv.filterPresent = true ∧
      env.purgeEnv.filterIgnoresSnapshots = false))
    (hpts : env.purgeEnv.points = []) (htmb : env.purgeEnv.tombstones = [])
    (hci : env.purgeEnv.cIterStatus = Status.ok)
    (hd : env.isDropped = false) (hs : env.shuttingDown = false)
    (hwm : env.writeManifest = true) :
    (run env imm0 ver0).mempurgeStatus = Status.ok ∧
    (run env imm0 ver0).purgeNewMemAdded = none ∧
    (run env imm0 ver0).purgeNewMemFreed = (run env imm0 ver0).purgeNewMemAllocated ∧
    (run env imm0 ver0).builtTable = false ∧
    (run env imm0 ver0).tryInstalledWriteEdit = some false ∧
    (run env imm0 ver0).editCommitted = false ∧
    (run env imm0 ver0).ver = ver0 ∧
    (run env imm0 ver0).imm.memlist =
      imm0.memlist.filter (fun m => decide (m ∉ env.mems)) := by
  have hpr := memPurge_empty_emission env.mems env.writeBufferSize env.purgeEnv imm0
    hfp hpts htmb hci
  have hms : runMempurgeStatus env imm0 = Status.ok := by
    unfold runMempurgeStatus
    rw [if_pos hatt]
    unfold purgeResultOf
    exact hpr.1
  have hio : runIoStatus env imm0 = Status.ok := by
    unfold runIoStatus
    rw [hms]
    rfl
  have hch : runChecked env imm0 = Status.ok := by
    unfold runChecked
    rw [hio, hd, hs]
    rfl
  have hnf : ¬((runChecked env imm0).isOk = false) := by
    rw [hch]
    simp [Status.isOk]
  have hbool : (!(runMempurgeStatus env imm0).isOk) = false := by
    rw [hms]
    rfl
  have himm1 : runImm1 env imm0 = imm0 := by
    unfold runImm1
    rw [if_pos hatt]
    unfold purgeResultOf
    exact hpr.2.2.1
  have himm2 : (runImm2 env imm0).memlist = imm0.memlist := by
    rw [runImm2_memlist, himm1]
  unfold run
  rw [if_neg hne, if_neg hnf, if_pos hwm]
  refine ⟨hms, ?_, ?_, ?_, ?_, ?_, ?_, ?_⟩
  · show runPurgeAdded env imm0 = none
    unfold runPurgeAdded
    rw [if_pos hatt]
    unfold purgeResultOf
    exact hpr.2.1
  · show runPurgeFreed env imm0 = runPurgeAllocated env imm0
    unfold runPurgeFreed runPurgeAllocated purgeResultOf
    rw [hatt]
    simp only [Bool.true_and]
    exact hpr.2.2.2
  · show (!(runMempurgeStatus env imm0).isOk) = false
    exact hbool
  · show some (!(runMempurgeStatus env imm0).isOk) = some false
    rw [hbool]
  · show (!(runMempurgeStatus env imm0).isOk && env.tryInstallStatus.isOk) = false
    rw [hbool]
    rfl
  · show (tryInstallMemtableFlushResults env.mems env.outputFileNumber
        (writeLevel0Table env.mems env.wl0).editHasFile
        (!(runMempurgeStatus env imm0).isOk) env.tryInstallStatus
        (runImm2 env imm0) ver0).2.2 = ver0
    rw [hbool]
    rfl
  · show (runImm2 env imm0).memlist.filter (fun m => decide (m ∉ env.mems)) =
      imm0.memlist.filter (fun m => decide (m ∉ env.mems))
    rw [himm2]

def w10Env : RunEnv :=
  { mems := [wMem, wMemB], allowMempurge := true,
    mempurgePolicy := MemPurgePolicy.kAlways,
    flushReason := FlushReason.kWriteBufferFull, writeBufferSize := 100,
    purgeEnv := { wPurgeEnvOk with points := [] }, wl0 := wWL0Ok,
    isDropped := false, shuttingDown := false, writeManifest := true,
    tryInstallStatus := Status.ok, outputFileNumber := 9 }

def w10Imm : ImmState := ⟨[wMem, wMemB], [], [3, 4]⟩

theorem mempurge_empty_emission_run_witness :
    runAttempted w10Env w10Imm = true ∧
    ((run w10Env w10Imm wVer).mempurgeStatus = Status.ok ∧
     (run w10Env w10Imm wVer).purgeNewMemAdded = none ∧
     (run w10Env w10Imm wVer).purgeNewMemFreed =
       (run w10Env w10Imm wVer).purgeNewMemAllocated ∧
     (run w10Env w10Imm wVer).builtTable = false ∧
     (run w10Env w10Imm wVer).tryInstalledWriteEdit = some false ∧
     (run w10Env w10Imm wVer).editCommitted = false ∧
     (run w10Env w10Imm wVer).ver = wVer ∧
     (run w10Env w10Imm wVer).imm.memlist =
       w10Imm.memlist.filter (fun m => decide (m ∉ w10Env.mems))) :=
  ⟨by decide,
   mempurge_empty_emission_run w10Env w10Imm wVer (by decide) (by decide) (by decide)
     rfl rfl rfl rfl rfl rfl⟩

/-- C4: when MemPurge returns OK and neither cancellation signal fires,
Run skips the disk write path, calls the installation with write_edit
false so no manifest edit is committed and the version receives neither
a new level 0 file nor a log number advance, the input memtables are
retired from the immutable list, and any new memtable the mempurge
inserted carries the minimum id of the input memtables. -/
theorem mempurge_success_skips_disk_write (env : RunEnv) (imm0 : ImmState)
    (ver0 : VersionM) (hne : env.mems ≠ [])
    (hok : (runMempurgeStatus env imm0).isOk = true)
    (hd : env.isDropped = false) (hs : env.shuttingDown = false)
    (hwm : env.writeManifest = true) :
    (run env imm0 ver0).builtTable = false ∧
    (run env imm0 ver0).tryInstalledWriteEdit = some false ∧
    (run env imm0 ver0).editCommitted = false ∧
    (run env imm0 ver0).ver = ver0 ∧
    (run env imm0 ver0).rollbackCalled = none ∧
    (∀ m ∈ env.mems, m ∉ (run env imm0 ver0).imm.memlist) ∧
    (∀ nm, (run env imm0 ver0).purgeNewMemAdded = some nm →
        (∃ m ∈ env.mems, nm.id = m.id) ∧ ∀ m ∈ env.mems, nm.id ≤ m.id) := by
  have hio : runIoStatus env imm0 = Status.ok := by
    unfold runIoStatus
    rw [if_pos hok]
  have hch : runChecked env imm0 = Status.ok := by
    unfold runChecked
    rw [hio, hd, hs]
    rfl
  have hnf : ¬((runChecked env imm0).isOk = false) := by
    rw [hch]
    simp [Status.isOk]
  have hbool : (!(runMempurgeStatus env imm0).isOk) = false := by
    rw [hok]
    rfl
  unfold run
  rw [if_neg hne, if_neg hnf, if_pos hwm]
  refine ⟨?_, ?_, ?_, ?_, rfl, ?_, ?_⟩
  · show (!(runMempurgeStatus env imm0).isOk) = false
    exact hbool
  · show some (!(runMempurgeStatus env imm0).isOk) = some false
    rw [hbool]
  · show (!(runMempurgeStatus env imm0).isOk && env.tryInstallStatus.isOk) = false
    rw [hbool]
    rfl
  · show (tryInstallMemtableFlushResults env.mems env.outputFileNumber
        (writeLevel0Table env.mems env.wl0).editHasFile
        (!(runMempurgeStatus env imm0).isOk) env.tryInstallStatus
        (runImm2 env imm0) ver0).2.2 = ver0
    rw [hbool]
    rfl
  · intro m hm hmem
    have hmem' : m ∈ (runImm2 env imm0).memlist.filter
        (fun x => decide (x ∉ env.mems)) := hmem
    have hdec := (List.mem_filter.mp hmem').2
    simp only [decide_eq_true_iff] at hdec
    exact hdec hm
  · intro nm hnm
    have hnm' : runPurgeAdded env imm0 = some nm := hnm
    unfold runPurgeAdded at hnm'
    by_cases hatt : runAttempted env imm0 = true
    · rw [if_pos hatt] at hnm'
      unfold purgeResultOf at hnm'
      obtain ⟨-, hid, -⟩ :=
        memPurge_added env.mems env.writeBufferSize env.purgeEnv imm0 nm hnm'
      obtain ⟨⟨m, hm, hmeq⟩, hall⟩ := minId_spec env.mems hne
      refine ⟨⟨m, hm, by rw [hid, hmeq]⟩, ?_⟩
      intro mt hmt
      rw [hid]
      exact hall mt hmt
    · rw [if_neg hatt] at hnm'
      exact absurd hnm' (by simp)

def w4Env : RunEnv :=
  { mems := [wMem, wMemB], allowMempurge := true,
    mempurgePolicy := MemPurgePolicy.kAlways,
    flushReason := FlushReason.kWriteBufferFull, writeBufferSize := 100,
    purgeEnv := wPurgeEnvOk, wl0 := wWL0Ok, isDropped := false,
    shuttingDown := false, writeManifest := true, tryInstallStatus := Status.ok,
    outputFileNumber := 9 }

theorem mempurge_success_skips_disk_write_witness :
    (runMempurgeStatus w4Env w10Imm).isOk = true ∧
    ((run w4Env w10Imm wVer).builtTable = false ∧
     (run w4Env w10Imm wVer).tryInstalledWriteEdit = some false ∧
     (run w4Env w10Imm wVer).editCommitted = false ∧
     (run w4Env w10Imm wVer).ver = wVer ∧
     (run w4Env w10Imm wVer).rollbackCalled = none ∧
     (∀ m ∈ w4Env.mems, m ∉ (run w4Env w10Imm wVer).imm.memlist) ∧
     (∀ nm, (run w4Env w10Imm wVer).purgeNewMemAdded = some nm →
        (∃ m ∈ w4Env.mems, nm.id = m.id) ∧ ∀ m ∈ w4Env.mems, nm.id ≤ m.id)) :=
  ⟨by decide,
   mempurge_success_skips_disk_write w4Env w10Imm wVer (by decide) (by decide)
     rfl rfl rfl⟩

/-- C2 (amended): for every non-empty flush job whose status after the
I/O phase and the drop and shutdown checks is non-OK, Run calls the
rollback with the picked memtable ids and the output file number, no
manifest edit is committed, and the immutable list is pointwise
identical to its state before the run whenever the mempurge attempt did
not succeed; when a mempurge succeeded before the failing check, the
list is either unchanged or additionally holds the mempurge output
memtable at its front. -/
theorem run_failure_rolls_back (env : RunEnv) (imm0 : ImmState) (ver0 : VersionM)
    (hne : env.mems ≠ [])
    (hfail : (run env imm0 ver0).statusAfterChecks.isOk = false) :
    (run env imm0 ver0).rollbackCalled =
      some (env.mems.map (fun m => m.id), env.outputFileNumber) ∧
    (run env imm0 ver0).editCommitted = false ∧
    (run env imm0 ver0).tryInstalledWriteEdit = none ∧
    ((run env imm0 ver0).mempurgeStatus.isOk = false →
        (run env imm0 ver0).imm.memlist = imm0.memlist) ∧
    ((run env imm0 ver0).mempurgeStatus.isOk = true →
        (run env imm0 ver0).imm.memlist = imm0.memlist ∨
        ∃ nm, (run env imm0 ver0).imm.memlist = nm :: imm0.memlist) := by
  have hf : (runChecked env imm0).isOk = false := by
    rw [← (run_fields env imm0 ver0 hne).1]
    exact hfail
  unfold run
  rw [if_neg hne, if_pos hf]
  refine ⟨rfl, rfl, rfl, ?_, ?_⟩
  · show (runMempurgeStatus env imm0).isOk = false →
      (rollbackMemtableFlush env.mems env.outputFileNumber
        (runImm2 env imm0)).memlist = imm0.memlist
    intro hnok
    rw [rollbackMemtableFlush_memlist, runImm2_memlist]
    unfold runImm1
    by_cases hatt : runAttempted env imm0 = true
    · rw [if_pos hatt]
      unfold runMempurgeStatus at hnok
      rw [if_pos hatt] at hnok
      unfold purgeResultOf at hnok ⊢
      have hadd := memPurge_not_ok env.mems env.writeBufferSize env.purgeEnv imm0 hnok
      rw [memPurge_none_imm env.mems env.writeBufferSize env.purgeEnv imm0 hadd]
    · rw [if_neg hatt]
  · show (runMempurgeStatus env imm0).isOk = true →
      (rollbackMemtableFlush env.mems env.outputFileNumber
        (runImm2 env imm0)).memlist = imm0.memlist ∨
      ∃ nm, (rollbackMemtableFlush env.mems env.outputFileNumber
        (runImm2 env imm0)).memlist = nm :: imm0.memlist
    intro hok
    rw [rollbackMemtableFlush_memlist, runImm2_memlist]
    unfold runImm1
    have hatt : runAttempted env imm0 = true := by
      by_contra hatt
      unfold runMempurgeStatus at hok
      rw [if_neg hatt] at hok
      exact absurd hok (by simp [Status.isOk])
    rw [if_pos hatt]
    unfold purgeResultOf
    cases hadd : (memPurge env.mems env.writeBufferSize env.purgeEnv imm0).newMemAdded with
    | none =>
      exact Or.inl (by
        rw [memPurge_none_imm env.mems env.writeBufferSize env.purgeEnv imm0 hadd])
    | some nm =>
      exact Or.inr ⟨nm,
        (memPurge_added env.mems env.writeBufferSize env.purgeEnv imm0 nm hadd).1⟩

def c2Env : RunEnv :=
  { mems := [wMem], allowMempurge := true, mempurgePolicy := MemPurgePolicy.kAlways,
    flushReason := FlushReason.kWriteBufferFull, writeBufferSize := 100,
    purgeEnv := wPurgeEnvOk, wl0 := wWL0Ok, isDropped := false, shuttingDown := true,
    writeManifest := true, tryInstallStatus := Status.ok, outputFileNumber := 9 }

/-- C2 counterexample: a successful mempurge adds the new memtable to
the immutable list before the shutdown check turns the status non-OK;
Run then rolls back with the picked memtables and the output file
number and commits no edit, yet the immutable list is NOT pointwise
identical to its state before the run. -/
theorem run_failure_list_not_identical :
    (run c2Env wImmA wVer).statusAfterChecks.isOk = false ∧
    (run c2Env wImmA wVer).rollbackCalled = some ([3], 9) ∧
    (run c2Env wImmA wVer).editCommitted = false ∧
    (run c2Env wImmA wVer).imm.memlist ≠ wImmA.memlist := by
  exact ⟨by decide, by decide, by decide, by decide⟩

theorem run_failure_rolls_back_witness :
    c2Env.mems ≠ [] ∧
    (run c2Env wImmA wVer).statusAfterChecks.isOk = false ∧
    ((run c2Env wImmA wVer).rollbackCalled =
       some (c2Env.mems.map (fun m => m.id), c2Env.outputFileNumber) ∧
     (run c2Env wImmA wVer).editCommitted = false ∧
     (run c2Env wImmA wVer).tryInstalledWriteEdit = none ∧
     ((run c2Env wImmA wVer).mempurgeStatus.isOk = false →
        (run c2Env wImmA wVer).imm.memlist = wImmA.memlist) ∧
     ((run c2Env wImmA wVer).mempurgeStatus.isOk = true →
        (run c2Env wImmA wVer).imm.memlist = wImmA.memlist ∨
        ∃ nm, (run c2Env wImmA wVer).imm.memlist = nm :: wImmA.memlist)) :=
  ⟨by decide, by decide,
   run_failure_rolls_back c2Env wImmA wVer (by decide) (by decide)⟩

end FlushJobModel
